import Mathlib

/-
Verification of the client-side SASL/SCRAM authentication flow of
`src/src/v/kafka/client/sasl_client.cc` (namespace kafka::client).

The file embeds the control flow of `do_sasl_handshake`,
`send_scram_client_first`, `send_scram_client_final` and
`do_authenticate_scram` as pure Lean functions.  The asynchronous broker
round trips are modelled by passing the broker's responses as explicit
inputs, and the order in which the flow performs its observable actions
(sending a message, decoding a payload, deriving the salted password,
checking the server signature) is recorded in an explicit event trace.

The `security::` SCRAM primitives (message types, the Hi derivation, the
proof/signature computations) and `random_generators` are declared in
headers that are not part of this repository slice; they are modelled from
the spec, as noted on each definition.  The hash-dependent computations are
kept abstract as a `ScramAlgo` structure of functions, mirroring the
`template<typename ScramAlgo>` parameter of `do_authenticate_scram`.
-/

namespace KafkaClient

/-- Byte sequences (`bytes` in the source), modelled as lists of byte
values. -/
abbrev bytes := List Nat

/-- Kafka protocol error codes, as used by `sasl_client.cc`: the success
code `none`, the code `sasl_authentication_failed` thrown by the SCRAM
validation failures, and any other protocol code. -/
inductive error_code where
  | none
  | sasl_authentication_failed
  | other (code : Nat)
deriving DecidableEq, Repr

/-- The exception type `broker_error` thrown by the flow: it carries the
broker identity (`broker->id()`), a protocol `error_code`, and an optional
human-readable message (the two-argument constructor used by
`do_sasl_handshake` leaves the message absent). -/
structure broker_error where
  node_id : Int
  ec : error_code
  msg : Option String
deriving DecidableEq, Repr

/-- Modelled from the spec: `security::client_first_message`, built from a
username and the freshly generated client nonce. -/
structure client_first_message where
  username : String
  nonce : String
deriving DecidableEq, Repr

/-- Modelled from the spec: `security::server_first_message`, the decoded
server-first payload with the server nonce (`r=`), salt (`s=`) and
iteration count (`i=`). -/
structure server_first_message where
  nonce : String
  salt : bytes
  iterations : Nat
deriving DecidableEq, Repr

/-- Modelled from the spec: `security::client_final_message`, holding the
channel-binding literal, the final nonce, and the proof, which is unset at
construction and attached later by `set_proof`. -/
structure client_final_message where
  channel_binding : String
  nonce : String
  proof : Option bytes
deriving DecidableEq, Repr

/-- Modelled from the spec: `security::server_final_message`, which carries
either an error attribute (`e=`) or a server signature (`v=`); the error
attribute takes precedence when present. -/
structure server_final_message where
  error : Option String
  signature : bytes
deriving DecidableEq, Repr

/-- The response to the SASL handshake request: only its error code is
inspected by `do_sasl_handshake`. -/
structure sasl_handshake_response where
  error_code : error_code
deriving DecidableEq, Repr

/-- The broker's response to the first authenticate request: the outer
error code, the optional server-provided error message, and the payload.
The RFC 5802 parsing of the raw `auth_bytes` happens in the `security`
library outside this repository slice, so the payload is carried in
decoded form and the trace records the point at which the source decodes
it. -/
structure server_first_response where
  error_code : error_code
  error_message : Option String
  payload : server_first_message
deriving DecidableEq, Repr

/-- The broker's response to the second authenticate request, with the
payload in decoded form as for `server_first_response`. -/
structure server_final_response where
  error_code : error_code
  error_message : Option String
  payload : server_final_message
deriving DecidableEq, Repr

/-- Modelled from the spec: the `ScramAlgo` capability set (the
`security::scram_sha256` / `security::scram_sha512` policy classes used as
the template parameter of `do_authenticate_scram`): the minimum accepted
iteration count and the four hash-dependent computations, kept abstract. -/
structure ScramAlgo where
  min_iterations : Nat
  hi : bytes → bytes → Nat → bytes
  client_proof : bytes → client_first_message → server_first_message → client_final_message → bytes
  server_key : bytes → bytes
  server_signature : bytes → client_first_message → server_first_message → client_final_message → bytes

/-- The observable actions of one authentication attempt, in the order the
source performs them. -/
inductive scram_event where
  | send_handshake (mechanism : String)
  | send_client_first (m : client_first_message)
  | decode_server_first
  | construct_client_final (m : client_final_message)
  | derive_salted_password (password : bytes) (salt : bytes) (iterations : Nat)
  | send_client_final (m : client_final_message)
  | decode_server_final
  | check_server_signature (received : bytes) (expected : bytes)
deriving DecidableEq, Repr

/-- The byte view of a string, as in `bytes(password.cbegin(), password.cend())`. -/
def str_bytes (s : String) : bytes :=
  s.toList.map Char.toNat

/-- `std::string_view::starts_with`: whether `s` starts with `p`, computed
on the character sequences. -/
def starts_with (s p : String) : Bool :=
  p.toList.isPrefixOf s.toList

/-- The 62 alphanumeric characters. -/
def alphanum_chars : List Char :=
  "abcdefghijklmnopqrstuvwxyzABCDEFGHIJKLMNOPQRSTUVWXYZ0123456789".toList

/-- Modelled from the spec: `random_generators::gen_alphanum_string(n)`
draws `n` random alphanumeric characters.  The randomness source is made
explicit as a list of draws, each reduced modulo 62 into the alphanumeric
alphabet. -/
def gen_alphanum_string (randomness : List Nat) (n : Nat) : String :=
  String.mk ((List.range n).map (fun i => alphanum_chars.getD ((randomness.getD i 0) % 62) 'a'))

/-- `do_sasl_handshake` (sasl_client.cc lines 15-23): send one handshake
request naming the mechanism, await one response, and throw a
`broker_error` with the broker id and the response's error code when that
code is not `none`. -/
def do_sasl_handshake (broker_id : Int) (mechanism : String)
    (resp : sasl_handshake_response) : Except broker_error Unit × List scram_event :=
  let tr := [scram_event.send_handshake mechanism]
  if resp.error_code ≠ error_code.none then
    (Except.error ⟨broker_id, resp.error_code, Option.none⟩, tr)
  else
    (Except.ok (), tr)

/-- `send_scram_client_first` (sasl_client.cc lines 25-41): send the
client-first message; on a non-success outer error code throw a
`broker_error` carrying the server's error message when present and the
placeholder otherwise; otherwise decode the payload as a
server-first message. -/
def send_scram_client_first (broker_id : Int) (client_first : client_first_message)
    (resp : server_first_response) :
    Except broker_error server_first_message × List scram_event :=
  let tr := [scram_event.send_client_first client_first]
  if resp.error_code ≠ error_code.none then
    (Except.error
      ⟨broker_id, resp.error_code, some (resp.error_message.getD "<no error message>")⟩, tr)
  else
    (Except.ok resp.payload, tr ++ [scram_event.decode_server_first])

/-- `send_scram_client_final` (sasl_client.cc lines 43-63): send the
client-final message; on a non-success outer error code throw a
`broker_error` carrying the server's error message when present and the
placeholder otherwise; otherwise decode the payload as a
server-final message. -/
def send_scram_client_final (broker_id : Int) (client_final : client_final_message)
    (resp : server_final_response) :
    Except broker_error server_final_message × List scram_event :=
  let tr := [scram_event.send_client_final client_final]
  if resp.error_code ≠ error_code.none then
    (Except.error
      ⟨broker_id, resp.error_code, some (resp.error_message.getD "<no error message>")⟩, tr)
  else
    (Except.ok resp.payload, tr ++ [scram_event.decode_server_final])

/-- `do_authenticate_scram` (sasl_client.cc lines 65-136): generate the
130-character alphanumeric client nonce, send the client-first message,
validate the server-first response (nonce prefix, iteration floor), derive
the salted password, build the client-final message with the channel
binding literal and the server nonce, compute and attach the client proof,
send it, and validate the server-final response (error attribute, then
server-signature comparison). -/
def do_authenticate_scram (A : ScramAlgo) (broker_id : Int)
    (username password : String) (randomness : List Nat)
    (resp1 : server_first_response) (resp2 : server_final_response) :
    Except broker_error Unit × List scram_event :=
  let nonce := gen_alphanum_string randomness 130
  let client_first : client_first_message := ⟨username, nonce⟩
  match send_scram_client_first broker_id client_first resp1 with
  | (Except.error e, tr1) => (Except.error e, tr1)
  | (Except.ok server_first, tr1) =>
    if ¬ starts_with server_first.nonce nonce then
      (Except.error
        ⟨broker_id, error_code.sasl_authentication_failed,
          some "Server nonce doesn't match client nonce"⟩, tr1)
    else if server_first.iterations < A.min_iterations then
      (Except.error
        ⟨broker_id, error_code.sasl_authentication_failed,
          some ("Server minimum iterations " ++ toString server_first.iterations
            ++ " < required " ++ toString A.min_iterations)⟩, tr1)
    else
      let client_final0 : client_final_message := ⟨"n,,", server_first.nonce, Option.none⟩
      let salted_password := A.hi (str_bytes password) server_first.salt server_first.iterations
      let client_final : client_final_message :=
        { client_final0 with
          proof := some (A.client_proof salted_password client_first server_first client_final0) }
      let tr2 := tr1 ++ [scram_event.construct_client_final client_final0,
        scram_event.derive_salted_password (str_bytes password) server_first.salt
          server_first.iterations]
      match send_scram_client_final broker_id client_final resp2 with
      | (Except.error e, tr3) => (Except.error e, tr2 ++ tr3)
      | (Except.ok server_final, tr3) =>
        match server_final.error with
        | some m =>
          (Except.error
            ⟨broker_id, error_code.sasl_authentication_failed, some m⟩, tr2 ++ tr3)
        | Option.none =>
          let server_sig := A.server_signature (A.server_key salted_password)
            client_first server_first client_final
          let tr4 := tr2 ++ tr3
            ++ [scram_event.check_server_signature server_final.signature server_sig]
          if server_final.signature ≠ server_sig then
            (Except.error
              ⟨broker_id, error_code.sasl_authentication_failed,
                some "Server signature does not match calculated signature"⟩, tr4)
          else
            (Except.ok (), tr4)

/-- The client-final messages sent during a trace, in order. -/
def sent_client_final_msgs (tr : List scram_event) : List client_final_message :=
  tr.filterMap (fun e => match e with
    | scram_event.send_client_final m => some m
    | _ => Option.none)

/-- Whether a trace performs the salted-password derivation (`ScramAlgo::hi`). -/
def mentions_derivation (tr : List scram_event) : Bool :=
  tr.any (fun e => match e with
    | scram_event.derive_salted_password _ _ _ => true
    | _ => false)

/-- Whether a trace reaches the server-signature comparison. -/
def mentions_signature_check (tr : List scram_event) : Bool :=
  tr.any (fun e => match e with
    | scram_event.check_server_signature _ _ => true
    | _ => false)

/-- Whether a trace decodes a server-first payload. -/
def mentions_decode_server_first (tr : List scram_event) : Bool :=
  tr.any (fun e => match e with
    | scram_event.decode_server_first => true
    | _ => false)

/-- Whether a trace decodes a server-final payload. -/
def mentions_decode_server_final (tr : List scram_event) : Bool :=
  tr.any (fun e => match e with
    | scram_event.decode_server_final => true
    | _ => false)

/-- The server signature the client expects (sasl_client.cc lines 102-128):
the server key is computed from the salted password, and the signature from
that key together with the client-first message, the server-first message,
and the client-final message with its proof attached. -/
def expected_server_signature (A : ScramAlgo) (username password : String)
    (randomness : List Nat) (sf : server_first_message) : bytes :=
  let nonce := gen_alphanum_string randomness 130
  let client_first : client_first_message := ⟨username, nonce⟩
  let client_final0 : client_final_message := ⟨"n,,", sf.nonce, Option.none⟩
  let salted_password := A.hi (str_bytes password) sf.salt sf.iterations
  let client_final : client_final_message :=
    { client_final0 with
      proof := some (A.client_proof salted_password client_first sf client_final0) }
  A.server_signature (A.server_key salted_password) client_first sf client_final

/-- A concrete SCRAM algorithm instance used by the witnesses: the
hash-dependent computations are arbitrary computable functions, and the
minimum iteration count is 4096 as for `scram_sha256`. -/
def testAlgo : ScramAlgo where
  min_iterations := 4096
  hi := fun pw salt its => pw ++ salt ++ [its % 256]
  client_proof := fun sp _ _ _ => sp
  server_key := fun sp => 0 :: sp
  server_signature := fun k _ _ _ => 1 :: k

/-- The client nonce an attempt generates from the empty randomness source. -/
def wN : String := gen_alphanum_string [] 130

/-- A well-formed server-first message echoing and extending the nonce. -/
def sfGood : server_first_message := ⟨wN ++ "SRV", [3, 7], 5000⟩

/-- A successful server-first response. -/
def r1Good : server_first_response := ⟨error_code.none, Option.none, sfGood⟩

/-- A server-first response with a non-success outer error code. -/
def r1Bad : server_first_response := ⟨error_code.other 7, some "boom", sfGood⟩

/-- A server-first response whose nonce does not extend the client nonce. -/
def r1BadNonce : server_first_response := ⟨error_code.none, Option.none, ⟨"ZZZ", [3, 7], 5000⟩⟩

/-- A server-first response whose iteration count is below the minimum. -/
def r1WeakIter : server_first_response := ⟨error_code.none, Option.none, ⟨wN ++ "SRV", [3, 7], 1⟩⟩

/-- A server-first response whose nonce is exactly the client nonce. -/
def r1ExactNonce : server_first_response := ⟨error_code.none, Option.none, ⟨wN, [3, 7], 5000⟩⟩

/-- The signature `testAlgo` expects for password "pencil" and `sfGood`. -/
def goodSig : bytes := 1 :: 0 :: (str_bytes "pencil" ++ [3, 7] ++ [5000 % 256])

/-- A server-final response carrying the expected signature. -/
def r2Good : server_final_response := ⟨error_code.none, Option.none, ⟨Option.none, goodSig⟩⟩

/-- A server-final response carrying a wrong signature. -/
def r2BadSig : server_final_response := ⟨error_code.none, Option.none, ⟨Option.none, [0]⟩⟩

/-- A server-final response carrying a SCRAM error attribute. -/
def r2Err : server_final_response := ⟨error_code.none, Option.none, ⟨some "nope", []⟩⟩

/-- A server-final response with a non-success outer error code. -/
def r2Outer : server_final_response := ⟨error_code.other 9, some "kaput", ⟨Option.none, []⟩⟩

set_option maxRecDepth 10000

/-- Each of the 62 alphanumeric characters is alphanumeric, and so is the
default character of the table lookup. -/
theorem alphanum_chars_getD_isAlphanum (m : Nat) :
    (alphanum_chars.getD (m % 62) 'a').isAlphanum = true := by
  have h62 : ∀ i : Fin 62, ((alphanum_chars.getD i 'a').isAlphanum = true) := by decide
  exact h62 ⟨m % 62, Nat.mod_lt _ (by norm_num)⟩

/-- Claim C1: when the server-final message carries no error attribute, the
authenticator computes the server key from the salted password, the expected
server signature from that key and the exchanged client-first, server-first
and client-final messages, compares it with the signature the server
supplied, fails with the server-signature error exactly when they differ,
and returns success when they are equal. -/
theorem C1_server_signature_verification (A : ScramAlgo) (id : Int) (u p : String)
    (rnd : List Nat) (r1 : server_first_response) (r2 : server_final_response)
    (h1 : r1.error_code = error_code.none)
    (h2 : starts_with r1.payload.nonce (gen_alphanum_string rnd 130) = true)
    (h3 : A.min_iterations ≤ r1.payload.iterations)
    (h4 : r2.error_code = error_code.none)
    (h5 : r2.payload.error = Option.none) :
    (do_authenticate_scram A id u p rnd r1 r2).1 =
      (if r2.payload.signature ≠ expected_server_signature A u p rnd r1.payload
       then Except.error ⟨id, error_code.sasl_authentication_failed,
         some "Server signature does not match calculated signature"⟩
       else Except.ok ())
    ∧ mentions_signature_check (do_authenticate_scram A id u p rnd r1 r2).2 = true := by
  unfold do_authenticate_scram send_scram_client_first send_scram_client_final
  simp [h1, h2, h4, h5, Nat.not_lt.mpr h3, mentions_signature_check, expected_server_signature]
  by_cases hs : r2.payload.signature
      = A.server_signature (A.server_key (A.hi (str_bytes p) r1.payload.salt
          r1.payload.iterations))
        ⟨u, gen_alphanum_string rnd 130⟩ r1.payload
        ⟨"n,,", r1.payload.nonce,
          some (A.client_proof (A.hi (str_bytes p) r1.payload.salt r1.payload.iterations)
            ⟨u, gen_alphanum_string rnd 130⟩ r1.payload
            ⟨"n,,", r1.payload.nonce, Option.none⟩)⟩ <;>
    simp [hs]

/-- Witness for C1 at a concrete run in which the server returns the
expected signature. -/
theorem C1_witness :
    (do_authenticate_scram testAlgo 1 "alice" "pencil" [] r1Good r2Good).1 =
      (if r2Good.payload.signature
          ≠ expected_server_signature testAlgo "alice" "pencil" [] r1Good.payload
       then Except.error ⟨1, error_code.sasl_authentication_failed,
         some "Server signature does not match calculated signature"⟩
       else Except.ok ())
    ∧ mentions_signature_check
        (do_authenticate_scram testAlgo 1 "alice" "pencil" [] r1Good r2Good).2 = true :=
  C1_server_signature_verification testAlgo 1 "alice" "pencil" [] r1Good r2Good
    rfl (by decide) (by decide) rfl rfl

/-- Claim C2: a server-first message whose nonce does not start with the
client nonce makes the attempt fail with the nonce-mismatch error, and the
salted-password derivation never runs in that attempt. -/
theorem C2_nonce_mismatch_before_derivation (A : ScramAlgo) (id : Int) (u p : String)
    (rnd : List Nat) (r1 : server_first_response) (r2 : server_final_response)
    (h1 : r1.error_code = error_code.none)
    (h2 : starts_with r1.payload.nonce (gen_alphanum_string rnd 130) = false) :
    (do_authenticate_scram A id u p rnd r1 r2).1 =
      Except.error ⟨id, error_code.sasl_authentication_failed,
        some "Server nonce doesn't match client nonce"⟩
    ∧ mentions_derivation (do_authenticate_scram A id u p rnd r1 r2).2 = false := by
  unfold do_authenticate_scram send_scram_client_first
  simp [h1, h2, mentions_derivation]

/-- Witness for C2 at a concrete run in which the server nonce does not
extend the client nonce. -/
theorem C2_witness :
    (do_authenticate_scram testAlgo 1 "alice" "pencil" [] r1BadNonce r2Good).1 =
      Except.error ⟨1, error_code.sasl_authentication_failed,
        some "Server nonce doesn't match client nonce"⟩
    ∧ mentions_derivation
        (do_authenticate_scram testAlgo 1 "alice" "pencil" [] r1BadNonce r2Good).2 = false :=
  C2_nonce_mismatch_before_derivation testAlgo 1 "alice" "pencil" [] r1BadNonce r2Good
    rfl (by decide)

/-- Claim C3: an iteration count strictly below the policy minimum makes the
attempt fail with the weak-iteration-count error without running the
salted-password derivation, while an iteration count at least the minimum is
accepted and the derivation runs. -/
theorem C3_weak_iteration_count (A : ScramAlgo) (id : Int) (u p : String)
    (rnd : List Nat) (r1 : server_first_response) (r2 : server_final_response)
    (h1 : r1.error_code = error_code.none)
    (h2 : starts_with r1.payload.nonce (gen_alphanum_string rnd 130) = true) :
    (r1.payload.iterations < A.min_iterations →
      (do_authenticate_scram A id u p rnd r1 r2).1 =
        Except.error ⟨id, error_code.sasl_authentication_failed,
          some ("Server minimum iterations " ++ toString r1.payload.iterations
            ++ " < required " ++ toString A.min_iterations)⟩
      ∧ mentions_derivation (do_authenticate_scram A id u p rnd r1 r2).2 = false)
    ∧ (A.min_iterations ≤ r1.payload.iterations →
      mentions_derivation (do_authenticate_scram A id u p rnd r1 r2).2 = true) := by
  constructor
  · intro hlt
    unfold do_authenticate_scram send_scram_client_first
    simp [h1, h2, hlt, mentions_derivation]
  · intro hge
    unfold do_authenticate_scram send_scram_client_first send_scram_client_final
    by_cases h4 : r2.error_code = error_code.none <;>
      rcases herr : r2.payload.error with _ | m <;>
        simp [h1, h2, h4, herr, Nat.not_lt.mpr hge, mentions_derivation] <;>
          split_ifs <;> simp [mentions_derivation]

/-- Witness for C3: a run rejected for one iteration when the minimum is
4096 performs no derivation, and a run offering 5000 iterations derives. -/
theorem C3_witness :
    ((do_authenticate_scram testAlgo 1 "alice" "pencil" [] r1WeakIter r2Good).1 =
      Except.error ⟨1, error_code.sasl_authentication_failed,
        some ("Server minimum iterations " ++ toString r1WeakIter.payload.iterations
          ++ " < required " ++ toString testAlgo.min_iterations)⟩
    ∧ mentions_derivation
        (do_authenticate_scram testAlgo 1 "alice" "pencil" [] r1WeakIter r2Good).2 = false)
    ∧ mentions_derivation
        (do_authenticate_scram testAlgo 1 "alice" "pencil" [] r1Good r2Good).2 = true :=
  ⟨(C3_weak_iteration_count testAlgo 1 "alice" "pencil" [] r1WeakIter r2Good
      rfl (by decide)).1 (by decide),
   (C3_weak_iteration_count testAlgo 1 "alice" "pencil" [] r1Good r2Good
      rfl (by decide)).2 (by decide)⟩

/-- Claim C4: a server-final message carrying an error attribute makes the
attempt fail with that exact message text, and the server-signature
comparison is never reached. -/
theorem C4_server_error_attribute (A : ScramAlgo) (id : Int) (u p : String)
    (rnd : List Nat) (r1 : server_first_response) (r2 : server_final_response)
    (emsg : String)
    (h1 : r1.error_code = error_code.none)
    (h2 : starts_with r1.payload.nonce (gen_alphanum_string rnd 130) = true)
    (h3 : A.min_iterations ≤ r1.payload.iterations)
    (h4 : r2.error_code = error_code.none)
    (h5 : r2.payload.error = some emsg) :
    (do_authenticate_scram A id u p rnd r1 r2).1 =
      Except.error ⟨id, error_code.sasl_authentication_failed, some emsg⟩
    ∧ mentions_signature_check (do_authenticate_scram A id u p rnd r1 r2).2 = false := by
  unfold do_authenticate_scram send_scram_client_first send_scram_client_final
  simp [h1, h2, h4, h5, Nat.not_lt.mpr h3, mentions_signature_check]

/-- Witness for C4 at a concrete run in which the server-final message
carries the error text "nope". -/
theorem C4_witness :
    (do_authenticate_scram testAlgo 1 "alice" "pencil" [] r1Good r2Err).1 =
      Except.error ⟨1, error_code.sasl_authentication_failed, some "nope"⟩
    ∧ mentions_signature_check
        (do_authenticate_scram testAlgo 1 "alice" "pencil" [] r1Good r2Err).2 = false :=
  C4_server_error_attribute testAlgo 1 "alice" "pencil" [] r1Good r2Err "nope"
    rfl (by decide) (by decide) rfl rfl

/-- Counterexample to claim C5 as stated: in a concrete successful run the
client-final message that is sent carries the server nonce unchanged as its
full nonce, which differs from the concatenation of the client nonce and the
server nonce (that concatenation would repeat the client nonce, since the
server nonce already starts with it). -/
theorem C5_counterexample :
    (sent_client_final_msgs
        (do_authenticate_scram testAlgo 1 "alice" "pencil" [] r1Good r2Good).2).map
      client_final_message.nonce = [wN ++ "SRV"]
    ∧ (wN ++ "SRV") ≠ (wN ++ (wN ++ "SRV")) := by
  constructor
  · decide
  · decide

/-- Claim C5 as amended: after a successfully validated server-first
message, the client-final message is constructed with the channel-binding
literal "n,," and a full nonce equal to the server nonce as received (which,
the prefix check having passed, already starts with the client nonce), with
the proof unset at construction; the proof is computed against the
proof-less message and attached before the message is sent. -/
theorem C5_client_final_construction (A : ScramAlgo) (id : Int) (u p : String)
    (rnd : List Nat) (r1 : server_first_response) (r2 : server_final_response)
    (h1 : r1.error_code = error_code.none)
    (h2 : starts_with r1.payload.nonce (gen_alphanum_string rnd 130) = true)
    (h3 : A.min_iterations ≤ r1.payload.iterations) :
    scram_event.construct_client_final ⟨"n,,", r1.payload.nonce, Option.none⟩
      ∈ (do_authenticate_scram A id u p rnd r1 r2).2
    ∧ sent_client_final_msgs (do_authenticate_scram A id u p rnd r1 r2).2 =
      [⟨"n,,", r1.payload.nonce,
        some (A.client_proof (A.hi (str_bytes p) r1.payload.salt r1.payload.iterations)
          ⟨u, gen_alphanum_string rnd 130⟩ r1.payload
          ⟨"n,,", r1.payload.nonce, Option.none⟩)⟩] := by
  unfold do_authenticate_scram send_scram_client_first send_scram_client_final
  by_cases h4 : r2.error_code = error_code.none <;>
    rcases herr : r2.payload.error with _ | m <;>
      simp [h1, h2, h4, herr, Nat.not_lt.mpr h3, sent_client_final_msgs] <;>
        split_ifs <;> simp [sent_client_final_msgs]

/-- Witness for the amended C5 at a concrete successful run. -/
theorem C5_witness :
    scram_event.construct_client_final ⟨"n,,", r1Good.payload.nonce, Option.none⟩
      ∈ (do_authenticate_scram testAlgo 1 "alice" "pencil" [] r1Good r2Good).2
    ∧ sent_client_final_msgs
        (do_authenticate_scram testAlgo 1 "alice" "pencil" [] r1Good r2Good).2 =
      [⟨"n,,", r1Good.payload.nonce,
        some (testAlgo.client_proof
          (testAlgo.hi (str_bytes "pencil") r1Good.payload.salt r1Good.payload.iterations)
          ⟨"alice", gen_alphanum_string [] 130⟩ r1Good.payload
          ⟨"n,,", r1Good.payload.nonce, Option.none⟩)⟩] :=
  C5_client_final_construction testAlgo 1 "alice" "pencil" [] r1Good r2Good
    rfl (by decide) (by decide)

/-- Claim C6: every attempt places in the client-first message a nonce
generated for that attempt from its own randomness source, an alphanumeric
string of exactly 130 characters. -/
theorem C6_fresh_alphanumeric_nonce (A : ScramAlgo) (id : Int) (u p : String)
    (rnd : List Nat) (r1 : server_first_response) (r2 : server_final_response) :
    scram_event.send_client_first ⟨u, gen_alphanum_string rnd 130⟩
      ∈ (do_authenticate_scram A id u p rnd r1 r2).2
    ∧ (gen_alphanum_string rnd 130).length = 130
    ∧ (gen_alphanum_string rnd 130).toList.all Char.isAlphanum = true := by
  refine ⟨?_, ?_, ?_⟩
  · unfold do_authenticate_scram send_scram_client_first send_scram_client_final
    by_cases h1 : r1.error_code = error_code.none <;>
      by_cases h4 : r2.error_code = error_code.none <;>
        rcases herr : r2.payload.error with _ | m <;>
          simp [h1, h4, herr] <;> split_ifs <;> simp
  · simp [gen_alphanum_string, String.length]
  · simp only [gen_alphanum_string, String.toList, List.all_eq_true]
    intro c hc
    simp only [String.mk, List.mem_map, List.mem_range] at hc
    obtain ⟨i, _, rfl⟩ := hc
    exact alphanum_chars_getD_isAlphanum _

/-- Claim C7: the handshake sends exactly one request naming the mechanism
and awaits one response; a non-success error code fails the attempt with the
broker identity and that error code, with no retry, and a success code
returns unit. -/
theorem C7_handshake_single_round (id : Int) (mech : String)
    (resp : sasl_handshake_response) :
    do_sasl_handshake id mech resp =
      ((if resp.error_code = error_code.none then Except.ok ()
        else Except.error ⟨id, resp.error_code, Option.none⟩),
       [scram_event.send_handshake mech]) := by
  unfold do_sasl_handshake
  by_cases h : resp.error_code = error_code.none <;> simp [h]

/-- Claim C8: a non-success outer error code on either authenticate round
fails the attempt at once with the broker identity, that error code, and the
server-provided message when present or the placeholder otherwise, and the
payload of the rejected response is never decoded. -/
theorem C8_outer_error_rejected (A : ScramAlgo) (id : Int) (u p : String)
    (rnd : List Nat) (r1 : server_first_response) (r2 : server_final_response) :
    (r1.error_code ≠ error_code.none →
      (do_authenticate_scram A id u p rnd r1 r2).1 =
        Except.error ⟨id, r1.error_code, some (r1.error_message.getD "<no error message>")⟩
      ∧ mentions_decode_server_first (do_authenticate_scram A id u p rnd r1 r2).2 = false
      ∧ mentions_decode_server_final (do_authenticate_scram A id u p rnd r1 r2).2 = false)
    ∧ (r1.error_code = error_code.none →
       starts_with r1.payload.nonce (gen_alphanum_string rnd 130) = true →
       A.min_iterations ≤ r1.payload.iterations →
       r2.error_code ≠ error_code.none →
      (do_authenticate_scram A id u p rnd r1 r2).1 =
        Except.error ⟨id, r2.error_code, some (r2.error_message.getD "<no error message>")⟩
      ∧ mentions_decode_server_final (do_authenticate_scram A id u p rnd r1 r2).2 = false) := by
  constructor
  · intro h1
    unfold do_authenticate_scram send_scram_client_first
    simp [h1, mentions_decode_server_first, mentions_decode_server_final]
  · intro h1 h2 h3 h4
    unfold do_authenticate_scram send_scram_client_first send_scram_client_final
    simp [h1, h2, h4, Nat.not_lt.mpr h3, mentions_decode_server_final]

/-- Witness for C8: one run rejected on the first round with error text
"boom", one run rejected on the second round with error text "kaput". -/
theorem C8_witness :
    ((do_authenticate_scram testAlgo 1 "alice" "pencil" [] r1Bad r2Good).1 =
      Except.error ⟨1, r1Bad.error_code, some (r1Bad.error_message.getD "<no error message>")⟩
    ∧ mentions_decode_server_first
        (do_authenticate_scram testAlgo 1 "alice" "pencil" [] r1Bad r2Good).2 = false
    ∧ mentions_decode_server_final
        (do_authenticate_scram testAlgo 1 "alice" "pencil" [] r1Bad r2Good).2 = false)
    ∧ ((do_authenticate_scram testAlgo 1 "alice" "pencil" [] r1Good r2Outer).1 =
      Except.error ⟨1, r2Outer.error_code, some (r2Outer.error_message.getD "<no error message>")⟩
    ∧ mentions_decode_server_final
        (do_authenticate_scram testAlgo 1 "alice" "pencil" [] r1Good r2Outer).2 = false) :=
  ⟨(C8_outer_error_rejected testAlgo 1 "alice" "pencil" [] r1Bad r2Good).1 (by decide),
   (C8_outer_error_rejected testAlgo 1 "alice" "pencil" [] r1Good r2Outer).2
     rfl (by decide) (by decide) (by decide)⟩

/-- Claim C9: the nonce-echo validation is a prefix check only: a server
nonce exactly equal to the client nonce passes it, and the attempt proceeds
to the salted-password derivation. -/
theorem C9_exact_nonce_accepted (A : ScramAlgo) (id : Int) (u p : String)
    (rnd : List Nat) (r1 : server_first_response) (r2 : server_final_response)
    (h1 : r1.error_code = error_code.none)
    (h2 : r1.payload.nonce = gen_alphanum_string rnd 130)
    (h3 : A.min_iterations ≤ r1.payload.iterations) :
    starts_with r1.payload.nonce (gen_alphanum_string rnd 130) = true
    ∧ mentions_derivation (do_authenticate_scram A id u p rnd r1 r2).2 = true := by
  have hs : starts_with r1.payload.nonce (gen_alphanum_string rnd 130) = true := by
    rw [h2]; simp [starts_with, List.isPrefixOf_iff_prefix]
  refine ⟨hs, ?_⟩
  unfold do_authenticate_scram send_scram_client_first send_scram_client_final
  by_cases h4 : r2.error_code = error_code.none <;>
    rcases herr : r2.payload.error with _ | m <;>
      simp [h1, hs, h4, herr, Nat.not_lt.mpr h3, mentions_derivation] <;>
        split_ifs <;> simp [mentions_derivation]

/-- Witness for C9 at a concrete run in which the server echoes the client
nonce without extending it. -/
theorem C9_witness :
    starts_with r1ExactNonce.payload.nonce (gen_alphanum_string [] 130) = true
    ∧ mentions_derivation
        (do_authenticate_scram testAlgo 1 "alice" "pencil" [] r1ExactNonce r2Good).2 = true :=
  C9_exact_nonce_accepted testAlgo 1 "alice" "pencil" [] r1ExactNonce r2Good
    rfl rfl (by decide)

/-- Claim C10: each of the four SCRAM validation failures raised after the
server-first response is received (nonce mismatch, weak iteration count,
server-reported error attribute, server-signature mismatch) is a
broker_error with the broker identity and the single outer error code
sasl_authentication_failed, the cases differing only in the message text. -/
theorem C10_uniform_failure_code (A : ScramAlgo) (id : Int) (u p : String)
    (rnd : List Nat) (r1 : server_first_response) (r2 : server_final_response)
    (h1 : r1.error_code = error_code.none) :
    (starts_with r1.payload.nonce (gen_alphanum_string rnd 130) = false →
      (do_authenticate_scram A id u p rnd r1 r2).1 =
        Except.error ⟨id, error_code.sasl_authentication_failed,
          some "Server nonce doesn't match client nonce"⟩)
    ∧ (starts_with r1.payload.nonce (gen_alphanum_string rnd 130) = true →
       r1.payload.iterations < A.min_iterations →
      (do_authenticate_scram A id u p rnd r1 r2).1 =
        Except.error ⟨id, error_code.sasl_authentication_failed,
          some ("Server minimum iterations " ++ toString r1.payload.iterations
            ++ " < required " ++ toString A.min_iterations)⟩)
    ∧ (starts_with r1.payload.nonce (gen_alphanum_string rnd 130) = true →
       A.min_iterations ≤ r1.payload.iterations →
       r2.error_code = error_code.none →
       r2.payload.error ≠ Option.none →
      (do_authenticate_scram A id u p rnd r1 r2).1 =
        Except.error ⟨id, error_code.sasl_authentication_failed, r2.payload.error⟩)
    ∧ (starts_with r1.payload.nonce (gen_alphanum_string rnd 130) = true →
       A.min_iterations ≤ r1.payload.iterations →
       r2.error_code = error_code.none →
       r2.payload.error = Option.none →
       r2.payload.signature ≠ expected_server_signature A u p rnd r1.payload →
      (do_authenticate_scram A id u p rnd r1 r2).1 =
        Except.error ⟨id, error_code.sasl_authentication_failed,
          some "Server signature does not match calculated signature"⟩) := by
  refine ⟨?_, ?_, ?_, ?_⟩
  · intro h2
    unfold do_authenticate_scram send_scram_client_first
    simp [h1, h2]
  · intro h2 hlt
    unfold do_authenticate_scram send_scram_client_first
    simp [h1, h2, hlt]
  · intro h2 h3 h4 herr
    rcases hm : r2.payload.error with _ | m
    · exact absurd hm herr
    · unfold do_authenticate_scram send_scram_client_first send_scram_client_final
      simp [h1, h2, h4, hm, Nat.not_lt.mpr h3]
  · intro h2 h3 h4 herr hsig
    unfold do_authenticate_scram send_scram_client_first send_scram_client_final
    simp only [expected_server_signature] at hsig
    simp [h1, h2, h4, herr, Nat.not_lt.mpr h3, hsig]

/-- Witness for C10 at a concrete run failing the nonce check: the error
carries the broker identity and the sasl_authentication_failed code. -/
theorem C10_witness :
    (do_authenticate_scram testAlgo 1 "alice" "pencil" [] r1BadNonce r2Good).1 =
      Except.error ⟨1, error_code.sasl_authentication_failed,
        some "Server nonce doesn't match client nonce"⟩ :=
  (C10_uniform_failure_code testAlgo 1 "alice" "pencil" [] r1BadNonce r2Good rfl).1
    (by decide)

end KafkaClient
